import Mathlib

/-!
Verification of the reflection dataflow analysis in
`libredex/ReflectionAnalysis.cpp`.

The development shallowly embeds the data model (`AbstractObject`, the
constant-propagation domain, the register environment) and the per-opcode
transfer function (`Analyzer::analyze_instruction` and its helpers), plus the
query facade (`ReflectionAnalysis`), and proves or refutes the specified
properties about them.
-/

set_option autoImplicit false

namespace Redex

/-- Interned DEX type descriptors compare by identity; since the interner is
keyed on the descriptor text, identity coincides with textual equality. -/
abbrev DexType := String

/-- Interned DEX strings; identity coincides with textual equality. -/
abbrev DexString := String

/-- Modelled from the spec: `JavaNameUtil::external_to_internal` turns
`"java.util.List"` into `"Ljava/util/List;"` — a `'L'` prefix, a `';'` suffix
and `'.'` replaced by `'/'` (the helper lives in `DexUtil.h`, outside `src/`). -/
def external_to_internal (s : String) : String :=
  "L" ++ String.mk (s.data.map fun c => if c = '.' then '/' else c) ++ ";"

/-- Modelled from the spec: `is_object` — a reference (object or array) type
descriptor starts with `'L'` or `'['`. -/
def isObjectType (t : DexType) : Bool :=
  match t.data with
  | [] => false
  | c :: _ => c = 'L' || c = '['

/-- Modelled from the spec: `is_void`. -/
def isVoid (t : DexType) : Bool := t = "V"

/-- Modelled from the spec: `is_array` — array descriptors start with `'['`. -/
def isArray (t : DexType) : Bool :=
  match t.data with
  | [] => false
  | c :: _ => c = '['

/-- Modelled from the spec: `get_array_component_type` strips one `'['`. -/
def get_array_component_type (t : DexType) : DexType :=
  String.mk (t.data.drop 1)

/-- `get_class_type()`: the `java.lang.Class` metatype. -/
def classType : DexType := "Ljava/lang/Class;"

/-- `get_string_type()`. -/
def stringType : DexType := "Ljava/lang/String;"

/-- A `DexMethodRef`: interned method references are canonical per
(class, name, proto), so pointer identity coincides with structural equality
of the full signature. -/
structure DexMethodRef where
  cls : DexType
  name : String
  args : List DexType
  rtype : DexType
deriving DecidableEq

/-- The interned reflection-API handles of `impl::Analyzer`. -/
def m_get_class : DexMethodRef :=
  ⟨"Ljava/lang/Object;", "getClass", [], "Ljava/lang/Class;"⟩

def m_get_method : DexMethodRef :=
  ⟨"Ljava/lang/Class;", "getMethod",
   ["Ljava/lang/String;", "[Ljava/lang/Class;"], "Ljava/lang/reflect/Method;"⟩

def m_get_declared_method : DexMethodRef :=
  ⟨"Ljava/lang/Class;", "getDeclaredMethod",
   ["Ljava/lang/String;", "[Ljava/lang/Class;"], "Ljava/lang/reflect/Method;"⟩

def m_get_constructor : DexMethodRef :=
  ⟨"Ljava/lang/Class;", "getConstructor",
   ["[Ljava/lang/Class;"], "Ljava/lang/reflect/Constructor;"⟩

def m_get_declared_constructor : DexMethodRef :=
  ⟨"Ljava/lang/Class;", "getDeclaredConstructor",
   ["[Ljava/lang/Class;"], "Ljava/lang/reflect/Constructor;"⟩

def m_get_constructors : DexMethodRef :=
  ⟨"Ljava/lang/Class;", "getConstructors",
   [], "[Ljava/lang/reflect/Constructor;"⟩

def m_get_declared_constructors : DexMethodRef :=
  ⟨"Ljava/lang/Class;", "getDeclaredConstructors",
   [], "[Ljava/lang/reflect/Constructor;"⟩

/-- `m_ctor_lookup_vmethods`: the vmethods on `java.lang.Class` that can find
constructors. -/
def m_ctor_lookup_vmethods : List DexMethodRef :=
  [m_get_constructor, m_get_declared_constructor,
   m_get_constructors, m_get_declared_constructors]

def m_get_field : DexMethodRef :=
  ⟨"Ljava/lang/Class;", "getField",
   ["Ljava/lang/String;"], "Ljava/lang/reflect/Field;"⟩

def m_get_declared_field : DexMethodRef :=
  ⟨"Ljava/lang/Class;", "getDeclaredField",
   ["Ljava/lang/String;"], "Ljava/lang/reflect/Field;"⟩

def m_get_method_name : DexMethodRef :=
  ⟨"Ljava/lang/reflect/Method;", "getName", [], "Ljava/lang/String;"⟩

def m_get_field_name : DexMethodRef :=
  ⟨"Ljava/lang/reflect/Field;", "getName", [], "Ljava/lang/String;"⟩

def m_for_name : DexMethodRef :=
  ⟨"Ljava/lang/Class;", "forName", ["Ljava/lang/String;"], "Ljava/lang/Class;"⟩

inductive ClassObjectSource
  | NOT_APPLICABLE
  | REFLECTION
  | NON_REFLECTION
deriving DecidableEq

inductive AbstractObjectKind
  | OBJECT
  | STRING
  | CLASS
  | FIELD
  | METHOD
deriving DecidableEq

/-- Modelled from the spec: `AbstractObject` (declared in
`ReflectionAnalysis.h`, outside `src/`) is a tagged value with five variants;
per §3.1 the fields present depend on the tag, the constructors populating
only the variant's own attributes (pointer fields may be null, hence
`Option`). -/
inductive AbstractObject
  | OBJECT (dex_type : Option DexType)
  | STRING (dex_string : Option DexString)
  | CLASS (dex_type : Option DexType) (cls_source : ClassObjectSource)
  | FIELD (dex_type : Option DexType) (dex_string : Option DexString)
  | METHOD (dex_type : Option DexType) (dex_string : Option DexString)
deriving DecidableEq

namespace AbstractObject

/-- The `kind` field read. -/
def kind : AbstractObject → AbstractObjectKind
  | OBJECT _ => .OBJECT
  | STRING _ => .STRING
  | CLASS _ _ => .CLASS
  | FIELD _ _ => .FIELD
  | METHOD _ _ => .METHOD

/-- The `dex_type` field read (null for variants that do not set it). -/
def dex_type : AbstractObject → Option DexType
  | OBJECT t => t
  | STRING _ => none
  | CLASS t _ => t
  | FIELD t _ => t
  | METHOD t _ => t

/-- The `dex_string` field read (null for variants that do not set it). -/
def dex_string : AbstractObject → Option DexString
  | OBJECT _ => none
  | STRING s => s
  | CLASS _ _ => none
  | FIELD _ s => s
  | METHOD _ s => s

/-- The `cls_source` field read (`NOT_APPLICABLE` outside `CLASS`). -/
def cls_source : AbstractObject → ClassObjectSource
  | CLASS _ src => src
  | _ => .NOT_APPLICABLE

end AbstractObject

/-- The four-argument `AbstractObject(kind, type, string)` constructor; the
analysis only ever invokes it with `FIELD` or `METHOD` as the kind. -/
def mkElement (k : AbstractObjectKind) (t : Option DexType)
    (s : Option DexString) : AbstractObject :=
  if k = .FIELD then .FIELD t s else .METHOD t s

/-- `operator==(const AbstractObject&, const AbstractObject&)`: kinds must
agree, then `OBJECT`/`CLASS` compare `dex_type` and `cls_source`, `STRING`
compares `dex_string`, and `FIELD`/`METHOD` compare `dex_type` and
`dex_string`. -/
def aoEq (x y : AbstractObject) : Bool :=
  if x.kind ≠ y.kind then false
  else
    match x.kind with
    | .OBJECT | .CLASS =>
        x.dex_type = y.dex_type && x.cls_source = y.cls_source
    | .STRING => x.dex_string = y.dex_string
    | .FIELD | .METHOD =>
        x.dex_type = y.dex_type && x.dex_string = y.dex_string

/-- `is_reflection_output`: `FIELD`/`METHOD`, or a `CLASS` whose source is
`REFLECTION`. -/
def is_reflection_output (obj : AbstractObject) : Bool :=
  if obj.kind = .FIELD || obj.kind = .METHOD then true
  else obj.kind = .CLASS && obj.cls_source = .REFLECTION

/-- Modelled from the spec: `sparta::ConstantAbstractDomain<AbstractObject>`
(§3.2) — the three-level lattice ⊥ < constant < ⊤. -/
inductive AbstractObjectDomain
  | bot
  | value (a : AbstractObject)
  | top
deriving DecidableEq

namespace AbstractObjectDomain

/-- `get_constant()`: the value iff neither ⊤ nor ⊥. -/
def get_constant : AbstractObjectDomain → Option AbstractObject
  | value a => some a
  | _ => none

/-- `leq`: ⊥ below everything, ⊤ above everything, constants compared with
the value type's `operator==`. -/
def le : AbstractObjectDomain → AbstractObjectDomain → Bool
  | bot, _ => true
  | _, top => true
  | value a, value b => aoEq a b
  | top, _ => false
  | value _, bot => false

end AbstractObjectDomain

/-- A register binding stored in a (non-⊥) environment: the environment maps
absent registers to ⊤ and never stores ⊥ (a ⊥ binding collapses the whole
environment, as in `sparta::PatriciaTreeMapAbstractEnvironment`). -/
inductive RegValue
  | vtop
  | vconst (a : AbstractObject)
deriving DecidableEq

namespace RegValue

def toDomain : RegValue → AbstractObjectDomain
  | vtop => .top
  | vconst a => .value a

def le : RegValue → RegValue → Bool
  | _, vtop => true
  | vconst a, vconst b => aoEq a b
  | vtop, vconst _ => false

end RegValue

/-- `ir_analyzer::RESULT_REGISTER`: a sentinel outside the method's real
register range (the maximal `uint32_t`). -/
def RESULT_REGISTER : Nat := 4294967295

/-- Modelled from the spec: the register environment (§3.3) — either ⊥ or a
total map from registers to non-⊥ domain elements, with absent keys ⊤. -/
inductive AbstractObjectEnvironment
  | bot
  | env (m : Nat → RegValue)

namespace AbstractObjectEnvironment

/-- The everywhere-⊤ environment (`AbstractObjectEnvironment::top()`). -/
def top : AbstractObjectEnvironment := env fun _ => .vtop

/-- `get(reg)`: ⊥ on the ⊥ environment, otherwise the stored binding. -/
def get : AbstractObjectEnvironment → Nat → AbstractObjectDomain
  | bot, _ => .bot
  | env m, r => (m r).toDomain

/-- `set(reg, v)`: no-op on the ⊥ environment; binding ⊥ collapses the
environment to ⊥. -/
def set : AbstractObjectEnvironment → Nat → AbstractObjectDomain →
    AbstractObjectEnvironment
  | bot, _, _ => bot
  | env _, _, .bot => bot
  | env m, r, .top => env fun r2 => if r2 = r then .vtop else m r2
  | env m, r, .value a => env fun r2 => if r2 = r then .vconst a else m r2

/-- The pointwise order on environments. -/
def le : AbstractObjectEnvironment → AbstractObjectEnvironment → Prop
  | bot, _ => True
  | env _, bot => False
  | env m, env m2 => ∀ r, RegValue.le (m r) (m2 r) = true

end AbstractObjectEnvironment

abbrev Env := AbstractObjectEnvironment

/-- The IR instructions the analysis distinguishes, with the `OTHER`
constructor standing for any unlisted opcode through the attributes
`default_semantics` consults (destination, wideness, conventional result). -/
inductive IRInstruction
  | LOAD_PARAM (dst : Nat)
  | LOAD_PARAM_OBJECT (dst : Nat)
  | LOAD_PARAM_WIDE (dst : Nat)
  | MOVE_OBJECT (dst src : Nat)
  | MOVE_RESULT_OBJECT (dst : Nat)
  | MOVE_RESULT_PSEUDO_OBJECT (dst : Nat)
  | CONST_STRING (lit : DexString)
  | CONST_CLASS (t : DexType)
  | CHECK_CAST (src : Nat) (t : DexType)
  | AGET_OBJECT (src0 src1 : Nat)
  | IGET_OBJECT (src : Nat) (fieldType : DexType)
  | SGET_OBJECT (fieldType : DexType)
  | NEW_INSTANCE (t : DexType)
  | NEW_ARRAY (src : Nat) (t : DexType)
  | FILLED_NEW_ARRAY (t : DexType)
  | INVOKE_VIRTUAL (callee : DexMethodRef) (src0 src1 : Nat)
  | INVOKE_STATIC (callee : DexMethodRef) (src0 : Nat)
  | INVOKE_INTERFACE (callee : DexMethodRef)
  | INVOKE_SUPER (callee : DexMethodRef)
  | INVOKE_DIRECT (callee : DexMethodRef)
  | OTHER (dst : Option Nat) (wide : Bool) (moveResult : Bool)
deriving DecidableEq

namespace IRInstruction

/-- `insn->dests_size() > 0` and `insn->dest()` combined. -/
def destOf : IRInstruction → Option Nat
  | LOAD_PARAM d | LOAD_PARAM_OBJECT d | LOAD_PARAM_WIDE d => some d
  | MOVE_OBJECT d _ | MOVE_RESULT_OBJECT d | MOVE_RESULT_PSEUDO_OBJECT d =>
      some d
  | OTHER d _ _ => d
  | _ => none

/-- `insn->dest_is_wide()`. -/
def destIsWide : IRInstruction → Bool
  | LOAD_PARAM_WIDE _ => true
  | OTHER _ w _ => w
  | _ => false

/-- `insn->has_move_result()`: the instruction's conventional result lives in
`RESULT_REGISTER`, to be consumed by a following `MOVE_RESULT_*` or
`MOVE_RESULT_PSEUDO_*`. -/
def hasMoveResult : IRInstruction → Bool
  | CONST_STRING _ | CONST_CLASS _ | CHECK_CAST _ _ | AGET_OBJECT _ _
  | IGET_OBJECT _ _ | SGET_OBJECT _ | NEW_INSTANCE _ | NEW_ARRAY _ _
  | FILLED_NEW_ARRAY _ | INVOKE_VIRTUAL _ _ _ | INVOKE_STATIC _ _
  | INVOKE_INTERFACE _ | INVOKE_SUPER _ | INVOKE_DIRECT _ => true
  | OTHER _ _ b => b
  | _ => false

/-- `insn->get_method()` for the invoke opcodes. -/
def calleeOf : IRInstruction → Option DexMethodRef
  | INVOKE_VIRTUAL c _ _ | INVOKE_STATIC c _ | INVOKE_INTERFACE c
  | INVOKE_SUPER c | INVOKE_DIRECT c => some c
  | _ => none

/-- The source registers the transfer function reads from the instruction. -/
def srcRegsOf : IRInstruction → List Nat
  | MOVE_OBJECT _ s => [s]
  | CHECK_CAST s _ => [s]
  | AGET_OBJECT s0 s1 => [s0, s1]
  | IGET_OBJECT s _ => [s]
  | NEW_ARRAY s _ => [s]
  | INVOKE_VIRTUAL _ s0 s1 => [s0, s1]
  | INVOKE_STATIC _ s0 => [s0]
  | _ => []

end IRInstruction

/-- `Analyzer::default_semantics`: clobber the destination register(s) and,
when the instruction writes a conventional result, `RESULT_REGISTER`. -/
def default_semantics (insn : IRInstruction) (s : Env) : Env :=
  let s1 :=
    match insn.destOf with
    | some d =>
        if insn.destIsWide then
          (s.set d .top).set (d + 1) .top
        else s.set d .top
    | none => s
  if insn.hasMoveResult then s1.set RESULT_REGISTER .top else s1

/-- The destination `update_non_string_input` writes through:
`insn->has_move_result() ? RESULT_REGISTER : insn->dest()`. -/
def destRegOf (insn : IRInstruction) : Nat :=
  if insn.hasMoveResult then RESULT_REGISTER else insn.destOf.getD 0

/-- `Analyzer::update_non_string_input`: bind an unknown reflective class when
the type is the `Class` metatype, otherwise an object of the given type. -/
def update_non_string_input (s : Env) (insn : IRInstruction) (t : DexType) :
    Env :=
  if t = classType then
    s.set (destRegOf insn) (.value (.CLASS none .NON_REFLECTION))
  else
    s.set (destRegOf insn) (.value (.OBJECT (some t)))

/-- `Analyzer::update_return_object`: nothing for a void or non-object return
type; otherwise bind the declared return type through `RESULT_REGISTER` (the
invoke instructions all have a conventional result). -/
def update_return_object (s : Env) (callee : DexMethodRef) : Env :=
  if isVoid callee.rtype || !isObjectType callee.rtype then s
  else if callee.rtype = classType then
    s.set RESULT_REGISTER (.value (.CLASS none .NON_REFLECTION))
  else
    s.set RESULT_REGISTER (.value (.OBJECT (some callee.rtype)))

/-- `Analyzer::get_dex_string_from_insn`: the interned string held by the
given source register, when its constant is a `STRING`. -/
def get_dex_string_from_insn (s : Env) (reg : Nat) : Option DexString :=
  match (s.get reg).get_constant with
  | some ao => if ao.kind = .STRING then ao.dex_string else none
  | none => none

/-- `Analyzer::process_virtual_call`, for an invoke-virtual whose receiver
register holds the constant `receiver`; `src1` is the register of source
operand 1 (the name argument of the member lookups). -/
def process_virtual_call (callee : DexMethodRef) (src1 : Nat)
    (receiver : AbstractObject) (s : Env) : Env :=
  match receiver with
  | .OBJECT t =>
      if callee = m_get_class then
        s.set RESULT_REGISTER (.value (.CLASS t .REFLECTION))
      else update_return_object s callee
  | .STRING _ =>
      if callee = m_get_class then
        s.set RESULT_REGISTER (.value (.CLASS (some stringType) .REFLECTION))
      else update_return_object s callee
  | .CLASS _ _ =>
      let elem : AbstractObjectKind × Option DexString :=
        if callee = m_get_method ∨ callee = m_get_declared_method then
          (.METHOD, get_dex_string_from_insn s src1)
        else if callee ∈ m_ctor_lookup_vmethods then
          -- Hard code the <init> method name.
          (.METHOD, some "<init>")
        else if callee = m_get_field ∨ callee = m_get_declared_field then
          (.FIELD, get_dex_string_from_insn s src1)
        else (.METHOD, none)
      match elem with
      | (k, some elementName) =>
          s.set RESULT_REGISTER
            (.value (mkElement k (some callee.cls) (some elementName)))
      | (_, none) => update_return_object s callee
  | .FIELD _ n =>
      if callee = m_get_field_name then
        s.set RESULT_REGISTER (.value (.STRING n))
      else update_return_object s callee
  | .METHOD _ n =>
      if callee = m_get_method_name then
        s.set RESULT_REGISTER (.value (.STRING n))
      else update_return_object s callee

/-- `Analyzer::analyze_instruction`: the per-instruction transfer function. -/
def analyze_instruction (insn : IRInstruction) (s : Env) : Env :=
  match insn with
  | .LOAD_PARAM _ | .LOAD_PARAM_OBJECT _ | .LOAD_PARAM_WIDE _ =>
      -- processed before the analysis
      s
  | .MOVE_OBJECT d src => s.set d (s.get src)
  | .MOVE_RESULT_OBJECT d | .MOVE_RESULT_PSEUDO_OBJECT d =>
      s.set d (s.get RESULT_REGISTER)
  | .CONST_STRING lit => s.set RESULT_REGISTER (.value (.STRING (some lit)))
  | .CONST_CLASS t =>
      s.set RESULT_REGISTER (.value (.CLASS (some t) .REFLECTION))
  | .CHECK_CAST src _ => s.set RESULT_REGISTER (s.get src)
  | .AGET_OBJECT src0 src1 =>
      match (s.get src0).get_constant with
      | some arrayObject =>
          match arrayObject.dex_type with
          | some t =>
              if isArray t then
                update_non_string_input s (.AGET_OBJECT src0 src1)
                  (get_array_component_type t)
              else default_semantics (.AGET_OBJECT src0 src1) s
          | none => default_semantics (.AGET_OBJECT src0 src1) s
      | none => default_semantics (.AGET_OBJECT src0 src1) s
  | .IGET_OBJECT src ft =>
      update_non_string_input s (.IGET_OBJECT src ft) ft
  | .SGET_OBJECT ft => update_non_string_input s (.SGET_OBJECT ft) ft
  | .NEW_INSTANCE t | .NEW_ARRAY _ t | .FILLED_NEW_ARRAY t =>
      s.set RESULT_REGISTER (.value (.OBJECT (some t)))
  | .INVOKE_VIRTUAL c s0 s1 =>
      match (s.get s0).get_constant with
      | none => update_return_object s c
      | some receiver => process_virtual_call c s1 receiver s
  | .INVOKE_STATIC c s0 =>
      if c = m_for_name then
        match (s.get s0).get_constant with
        | some className =>
            match className with
            | .STRING (some str) =>
                s.set RESULT_REGISTER
                  (.value (.CLASS (some (external_to_internal str))
                    .REFLECTION))
            | _ =>
                -- a STRING constant always carries its interned string, so
                -- only non-STRING constants reach this fall-through
                update_return_object s c
        | none => update_return_object s c
      else update_return_object s c
  | .INVOKE_INTERFACE c | .INVOKE_SUPER c | .INVOKE_DIRECT c =>
      update_return_object s c
  | .OTHER d w b => default_semantics (.OTHER d w b) s

/-- A method's `IRCode`: the registers size and the instructions in program
order, each paired with its identity (the `IRInstruction*` pointer). -/
structure IRCodeModel where
  registers_size : Nat
  insns : List (Nat × IRInstruction)

/-- The pieces of a `DexMethod` the analysis consumes: declaring class,
staticness, the proto's argument-type list, and the (possibly absent) code. -/
structure DexMethod where
  cls : DexType
  is_static : Bool
  args : List DexType
  code : Option IRCodeModel

/-- The parameter-seeding scan at the head of `Analyzer::run`: interpret the
leading `IOPCODE_LOAD_PARAM_*` pseudo-instructions of the entry block, taking
`this` for the first parameter of a non-static method and the next
argument-type otherwise, and exit at the first other opcode. `none` models
the `always_assert` firing when the parameter loads outnumber the
signature. -/
def seedParams (m : DexMethod) (firstParam : Bool) (sig : List DexType)
    (s : Env) : List IRInstruction → Option Env
  | [] => some s
  | i :: rest =>
    match i with
    | .LOAD_PARAM_OBJECT _ =>
        if firstParam && !m.is_static then
          seedParams m false sig (update_non_string_input s i m.cls) rest
        else
          match sig with
          | t :: sig2 =>
              seedParams m firstParam sig2 (update_non_string_input s i t) rest
          | [] => none
    | .LOAD_PARAM _ | .LOAD_PARAM_WIDE _ =>
        seedParams m firstParam sig (default_semantics i s) rest
    | _ => some s

/-- The initial environment `Analyzer::run` hands to the fixpoint engine. -/
def initialEnvironment (m : DexMethod) (entryInsns : List IRInstruction) :
    Option Env :=
  seedParams m true m.args AbstractObjectEnvironment.top entryInsns

/-- `impl::Analyzer` after `populate_environments`: the per-instruction
replay cache `m_environments`, keyed by instruction identity. -/
structure AnalyzerModel where
  environments : List (Nat × Env)

/-- `Analyzer::get_abstract_object`: `none` when the instruction has no
cached environment, otherwise the cached environment's constant for the
register. -/
def AnalyzerModel.get_abstract_object (a : AnalyzerModel) (reg : Nat)
    (insn : Nat) : Option AbstractObject :=
  match List.lookup insn a.environments with
  | none => none
  | some e => (e.get reg).get_constant

/-- `ReflectionAnalysis`: the facade owns the method and, when the method has
code, the analyzer. -/
structure ReflectionAnalysisModel where
  method : DexMethod
  analyzer : Option AnalyzerModel

/-- The `ReflectionAnalysis` constructor: record "no analyzer" and return
when the method has no code; otherwise build the CFG and run the analyzer
(the fixpoint engine is an external collaborator, abstracted as `runA`). -/
def reflectionAnalysisCtor (runA : IRCodeModel → AnalyzerModel)
    (m : DexMethod) : ReflectionAnalysisModel :=
  match m.code with
  | none => ⟨m, none⟩
  | some code => ⟨m, some (runA code)⟩

/-- `ReflectionAnalysis::get_abstract_object`: `none` when there is no
analyzer. -/
def ReflectionAnalysisModel.get_abstract_object
    (ra : ReflectionAnalysisModel) (reg : Nat) (insn : Nat) :
    Option AbstractObject :=
  match ra.analyzer with
  | none => none
  | some a => a.get_abstract_object reg insn

/-- `ReflectionAnalysis::get_reflection_site` for one register: the entry
added to the per-instruction map when the register's constant satisfies
`is_reflection_output`. -/
def get_reflection_site (a : AnalyzerModel) (reg : Nat) (insn : Nat) :
    Option (Nat × AbstractObject) :=
  match a.get_abstract_object reg insn with
  | none => none
  | some aobj => if is_reflection_output aobj then some (reg, aobj) else none

/-- `ReflectionAnalysis::get_reflection_sites`. The outer `Option` models the
two unchecked null dereferences: `m_dex_method->get_code()` is dereferenced
for the registers size with no null check, and `get_reflection_site` calls
through `m_analyzer` with no null check (reached as soon as any instruction
is visited). The C++ `std::map` orders entries by register; iterating the
registers in ascending order followed by the maximal `RESULT_REGISTER`
produces the same order. -/
def get_reflection_sites (ra : ReflectionAnalysisModel) :
    Option (List (Nat × List (Nat × AbstractObject))) :=
  match ra.method.code with
  | none => none
  | some code =>
    match ra.analyzer with
    | some a =>
        some (code.insns.filterMap fun p =>
          let abstract_objects :=
            (List.range code.registers_size ++ [RESULT_REGISTER]).filterMap
              fun r => get_reflection_site a r p.1
          if abstract_objects.isEmpty then none
          else some (p.1, abstract_objects))
    | none => if code.insns.isEmpty then some [] else none

/-- `ReflectionAnalysis::has_found_reflection`: whether `get_reflection_sites`
is non-empty (inheriting its unchecked dereferences). -/
def has_found_reflection (ra : ReflectionAnalysisModel) : Option Bool :=
  (get_reflection_sites ra).map fun l => !l.isEmpty

/-! ### Basic lemmas about the domain and environment orders -/

theorem aoEq_refl (a : AbstractObject) : aoEq a a = true := by
  cases a <;>
    simp [aoEq, AbstractObject.kind, AbstractObject.dex_type,
      AbstractObject.dex_string, AbstractObject.cls_source]

theorem aoEq_iff_eq (a b : AbstractObject) : aoEq a b = true ↔ a = b := by
  cases a <;> cases b <;>
    simp [aoEq, AbstractObject.kind, AbstractObject.dex_type,
      AbstractObject.dex_string, AbstractObject.cls_source]

theorem regValue_le_top (x : RegValue) : RegValue.le x .vtop = true := by
  cases x <;> rfl

theorem regValue_le_refl (x : RegValue) : RegValue.le x x = true := by
  cases x <;> simp [RegValue.le, aoEq_refl]

theorem domain_le_refl (x : AbstractObjectDomain) :
    x.le x = true := by
  cases x <;> simp [AbstractObjectDomain.le, aoEq_refl]

theorem env_le_refl (E : Env) : E.le E := by
  cases E with
  | bot => trivial
  | env m => exact fun r => regValue_le_refl (m r)

theorem env_not_le_bot {m : Nat → RegValue} :
    ¬ AbstractObjectEnvironment.le (.env m) .bot := fun h => h

theorem domain_bot_le (x : AbstractObjectDomain) :
    AbstractObjectDomain.le .bot x = true := by
  cases x <;> rfl

theorem get_le {E E2 : Env} (h : E.le E2) (r : Nat) :
    (E.get r).le (E2.get r) = true := by
  cases E with
  | bot => exact domain_bot_le _
  | env m =>
    cases E2 with
    | bot => exact absurd h env_not_le_bot
    | env m2 =>
      have hr := h r
      cases hm : m r <;> cases hm2 : m2 r <;>
        simp_all [RegValue.le, RegValue.toDomain,
          AbstractObjectEnvironment.get, AbstractObjectDomain.le]

theorem set_le {E E2 : Env} {v v2 : AbstractObjectDomain} (h : E.le E2)
    (hv : v.le v2 = true) (r : Nat) : (E.set r v).le (E2.set r v2) := by
  cases E with
  | bot => cases v <;> trivial
  | env m =>
    cases E2 with
    | bot => exact absurd h env_not_le_bot
    | env m2 =>
      cases v with
      | bot => cases v2 <;> trivial
      | value a =>
        cases v2 with
        | bot => simp [AbstractObjectDomain.le] at hv
        | value b =>
          intro r2
          by_cases hr : r2 = r
          · simp_all [AbstractObjectEnvironment.set, RegValue.le,
              AbstractObjectDomain.le]
          · simpa [AbstractObjectEnvironment.set, hr] using h r2
        | top =>
          intro r2
          by_cases hr : r2 = r
          · simp_all [AbstractObjectEnvironment.set, regValue_le_top]
          · simpa [AbstractObjectEnvironment.set, hr] using h r2
      | top =>
        cases v2 with
        | bot => simp [AbstractObjectDomain.le] at hv
        | value b => simp [AbstractObjectDomain.le] at hv
        | top =>
          intro r2
          by_cases hr : r2 = r
          · simp_all [AbstractObjectEnvironment.set, regValue_le_top]
          · simpa [AbstractObjectEnvironment.set, hr] using h r2

theorem set_bot (r : Nat) (v : AbstractObjectDomain) :
    AbstractObjectEnvironment.bot.set r v = .bot := rfl

theorem get_bot (r : Nat) : AbstractObjectEnvironment.bot.get r = .bot := rfl

theorem default_semantics_bot (i : IRInstruction) :
    default_semantics i .bot = .bot := by
  unfold default_semantics
  cases i.destOf <;> cases i.destIsWide <;> cases i.hasMoveResult <;>
    simp [AbstractObjectEnvironment.set]

theorem update_non_string_input_bot (i : IRInstruction) (t : DexType) :
    update_non_string_input .bot i t = .bot := by
  unfold update_non_string_input
  split <;> rfl

theorem update_return_object_bot (c : DexMethodRef) :
    update_return_object .bot c = .bot := by
  unfold update_return_object
  split
  · rfl
  · split <;> rfl

theorem process_virtual_call_bot (c : DexMethodRef) (src1 : Nat)
    (recv : AbstractObject) : process_virtual_call c src1 recv .bot = .bot := by
  unfold process_virtual_call
  cases recv <;> simp [update_return_object_bot, set_bot]
  case CLASS t src =>
    split <;> simp [update_return_object_bot, set_bot]

theorem analyze_instruction_bot (i : IRInstruction) :
    analyze_instruction i .bot = .bot := by
  unfold analyze_instruction
  cases i <;>
    simp [set_bot, get_bot, default_semantics_bot, update_non_string_input_bot,
      update_return_object_bot, process_virtual_call_bot,
      AbstractObjectDomain.get_constant]

theorem domain_le_top (x : AbstractObjectDomain) :
    x.le .top = true := by
  cases x <;> rfl

theorem not_le_of_get {E E2 : Env} (r : Nat)
    (h : (E.get r).le (E2.get r) = false) : ¬ E.le E2 := by
  intro hle
  have h2 := get_le hle r
  rw [h] at h2
  exact Bool.false_ne_true h2

theorem update_return_object_le {E E2 : Env} (h : E.le E2) (c : DexMethodRef) :
    (update_return_object E c).le (update_return_object E2 c) := by
  unfold update_return_object
  split
  · exact h
  · split <;> exact set_le h (domain_le_refl _) _

theorem update_non_string_input_le {E E2 : Env} (h : E.le E2)
    (i : IRInstruction) (t : DexType) :
    (update_non_string_input E i t).le (update_non_string_input E2 i t) := by
  unfold update_non_string_input
  split <;> exact set_le h (domain_le_refl _) _

theorem default_semantics_le {E E2 : Env} (h : E.le E2) (i : IRInstruction) :
    (default_semantics i E).le (default_semantics i E2) := by
  have htop : AbstractObjectDomain.le .top .top = true := rfl
  unfold default_semantics
  cases hd : i.destOf <;> cases hw : i.destIsWide <;>
    cases hm : i.hasMoveResult <;> simp only [Bool.false_eq_true, if_false,
      if_true, ite_true, ite_false, Bool.true_eq_false] <;>
    first
      | exact h
      | exact set_le h htop _
      | exact set_le (set_le h htop _) htop _
      | exact set_le (set_le (set_le h htop _) htop _) htop _

theorem value_ne_bot (a : AbstractObject) :
    (AbstractObjectDomain.value a) ≠ .bot := fun h => nomatch h

theorem top_ne_bot : (AbstractObjectDomain.top) ≠ .bot := fun h => nomatch h

theorem set_ne_bot {X : Env} (hX : X ≠ .bot) {v : AbstractObjectDomain}
    (hv : v ≠ .bot) (r : Nat) : X.set r v ≠ .bot := by
  cases X with
  | bot => exact absurd rfl hX
  | env m =>
    cases v with
    | bot => exact absurd rfl hv
    | value a => exact fun h => nomatch h
    | top => exact fun h => nomatch h

theorem get_ne_bot {X : Env} (hX : X ≠ .bot) (r : Nat) : X.get r ≠ .bot := by
  cases X with
  | bot => exact absurd rfl hX
  | env m =>
    cases hm : m r <;>
      simp [AbstractObjectEnvironment.get, hm, RegValue.toDomain]

theorem get_after_set_self {X : Env} (hX : X ≠ .bot)
    {k : AbstractObjectDomain} (hk : k ≠ .bot) (r : Nat) :
    (X.set r k).get r = k := by
  cases X with
  | bot => exact absurd rfl hX
  | env m =>
    cases k with
    | bot => exact absurd rfl hk
    | value a =>
      simp [AbstractObjectEnvironment.set, AbstractObjectEnvironment.get,
        RegValue.toDomain]
    | top =>
      simp [AbstractObjectEnvironment.set, AbstractObjectEnvironment.get,
        RegValue.toDomain]

theorem get_after_set_other {X : Env} {v : AbstractObjectDomain}
    (hv : v ≠ .bot) {r r2 : Nat} (hr : r2 ≠ r) :
    (X.set r v).get r2 = X.get r2 := by
  cases X with
  | bot => cases v <;> rfl
  | env m =>
    cases v with
    | bot => exact absurd rfl hv
    | value a =>
      simp [AbstractObjectEnvironment.set, AbstractObjectEnvironment.get, hr]
    | top =>
      simp [AbstractObjectEnvironment.set, AbstractObjectEnvironment.get, hr]

/-- A callee whose return type is void or non-object is none of the
reflection-API handles (all of which return object types). -/
theorem nonobject_callee_ne (c : DexMethodRef)
    (hrt : (isVoid c.rtype || !isObjectType c.rtype) = true) :
    c ≠ m_get_class ∧ c ≠ m_get_method ∧ c ≠ m_get_declared_method
    ∧ c ∉ m_ctor_lookup_vmethods ∧ c ≠ m_get_field ∧ c ≠ m_get_declared_field
    ∧ c ≠ m_get_field_name ∧ c ≠ m_get_method_name ∧ c ≠ m_for_name := by
  refine ⟨?_, ?_, ?_, ?_, ?_, ?_, ?_, ?_, ?_⟩
  case refine_4 =>
    intro hmem
    simp [m_ctor_lookup_vmethods] at hmem
    rcases hmem with rfl | rfl | rfl | rfl <;> exact absurd hrt (by decide)
  all_goals (rintro rfl; exact absurd hrt (by decide))

/-- An invoke of a callee with void or non-object return type leaves the
environment untouched: every reflection rule requires one of the (object-
returning) interned handles, so the transfer falls through to
`update_return_object`, which does nothing. -/
theorem nonobject_invoke_transfer_id (c : DexMethodRef)
    (hrt : (isVoid c.rtype || !isObjectType c.rtype) = true) :
    (∀ X : Env, update_return_object X c = X)
    ∧ (∀ X : Env, analyze_instruction (.INVOKE_DIRECT c) X = X)
    ∧ (∀ X : Env, analyze_instruction (.INVOKE_SUPER c) X = X)
    ∧ (∀ X : Env, analyze_instruction (.INVOKE_INTERFACE c) X = X)
    ∧ (∀ (X : Env) (s0 : Nat), analyze_instruction (.INVOKE_STATIC c s0) X = X)
    ∧ (∀ (X : Env) (s0 s1 : Nat),
        analyze_instruction (.INVOKE_VIRTUAL c s0 s1) X = X) := by
  obtain ⟨h1, h2, h3, hctor, h4, h5, h6, h7, h8⟩ := nonobject_callee_ne c hrt
  have huro : ∀ X : Env, update_return_object X c = X := fun X => by
    simp [update_return_object, hrt]
  refine ⟨huro, fun X => huro X, fun X => huro X, fun X => huro X, ?_, ?_⟩
  · intro X s0
    simp [analyze_instruction, h8, huro]
  · intro X s0 s1
    simp only [analyze_instruction]
    cases (X.get s0).get_constant with
    | none => exact huro X
    | some recv =>
      cases recv with
      | OBJECT t => simp [process_virtual_call, h1, huro]
      | STRING s => simp [process_virtual_call, h1, huro]
      | CLASS t src =>
        simp [process_virtual_call, h2, h3, hctor, h4, h5, huro]
      | FIELD t n => simp [process_virtual_call, h6, huro]
      | METHOD t n => simp [process_virtual_call, h7, huro]

/-- For an object-returning, non-void callee, `update_return_object` binds a
callee-determined constant into `RESULT_REGISTER`. -/
theorem update_return_object_result_const {c : DexMethodRef}
    (hrt : (isVoid c.rtype || !isObjectType c.rtype) = false) {X : Env}
    (hX : X ≠ .bot) :
    (update_return_object X c).get RESULT_REGISTER
      = (if c.rtype = classType then .value (.CLASS none .NON_REFLECTION)
         else .value (.OBJECT (some c.rtype))) := by
  unfold update_return_object
  rw [if_neg (by simp [hrt])]
  split <;> rw [get_after_set_self hX (value_ne_bot _)]

/-- `get_dex_string_from_insn` only looks at the given register. -/
theorem get_dex_string_congr {X1 X2 : Env} {r : Nat}
    (h : X1.get r = X2.get r) :
    get_dex_string_from_insn X1 r = get_dex_string_from_insn X2 r := by
  unfold get_dex_string_from_insn
  rw [h]

/-- The `Class.forName` invoke-static transfer, with the callee identity test
already resolved. -/
theorem analyze_invoke_static_for_name (s0 : Nat) (X : Env) :
    analyze_instruction (.INVOKE_STATIC m_for_name s0) X
      = (match (X.get s0).get_constant with
         | some className =>
             (match className with
              | .STRING (some str) =>
                  X.set RESULT_REGISTER
                    (.value (.CLASS (some (external_to_internal str))
                      .REFLECTION))
              | _ => update_return_object X m_for_name)
         | none => update_return_object X m_for_name) := rfl

/-- The instructions whose transfer function does not inspect register
constants: everything except invoke-virtual and the `Class.forName`
invoke-static. -/
def mono_ok : IRInstruction → Bool
  | .INVOKE_VIRTUAL _ _ _ => false
  | .INVOKE_STATIC c _ => decide (c ≠ m_for_name)
  | _ => true

/-! ### Claim theorems -/

/-- C9: the in-loop transfer function treats the `IOPCODE_LOAD_PARAM_*`
pseudo-instructions as no-ops: for every such instruction and every
environment, the environment (every register, `RESULT_REGISTER` included)
is unchanged, so seeded parameter constants survive every fixpoint
iteration. -/
theorem c9_load_param_transfer_is_noop : ∀ (d : Nat) (E : Env),
    analyze_instruction (.LOAD_PARAM d) E = E
    ∧ analyze_instruction (.LOAD_PARAM_OBJECT d) E = E
    ∧ analyze_instruction (.LOAD_PARAM_WIDE d) E = E :=
  fun _ _ => ⟨rfl, rfl, rfl⟩

/-- C1 (code bug): on an invoke-virtual of the interned
`Class.getDeclaredMethod` handle with receiver `CLASS{Lcom/foo/Bar;}` and the
name register holding the string `"doIt"`, the transfer function binds
`RESULT_REGISTER` to `METHOD{Ljava/lang/Class;:doIt}` — the type recorded is
`callee->get_class()`, which for the identity-matched handle is constantly
`Ljava/lang/Class;`, not the receiver's type `Lcom/foo/Bar;` that the claim
(and the spec's `forName`-chain scenario) expects. -/
theorem c1_get_declared_method_records_java_lang_class :
    (analyze_instruction (.INVOKE_VIRTUAL m_get_declared_method 0 1)
        ((AbstractObjectEnvironment.top.set 0
            (.value (.CLASS (some "Lcom/foo/Bar;") .REFLECTION))).set 1
          (.value (.STRING (some "doIt"))))).get RESULT_REGISTER
      = .value (.METHOD (some "Ljava/lang/Class;") (some "doIt"))
    ∧ (some "Ljava/lang/Class;" : Option DexType) ≠ some "Lcom/foo/Bar;" := by
  exact ⟨by decide, by decide⟩

/-- C4 (code bug): on an invoke-virtual of the interned
`Class.getDeclaredConstructors` handle with receiver `CLASS{LBaz;}`, the
transfer function hard-codes the `"<init>"` name as claimed, but binds
`RESULT_REGISTER` to `METHOD{Ljava/lang/Class;:<init>}` — again
`callee->get_class()` rather than the receiver's type `LBaz;` the claim (and
the spec's constructor-lookup scenario) expects. -/
theorem c4_ctor_lookup_records_java_lang_class :
    (analyze_instruction (.INVOKE_VIRTUAL m_get_declared_constructors 0 1)
        (AbstractObjectEnvironment.top.set 0
          (.value (.CLASS (some "LBaz;") .REFLECTION)))).get RESULT_REGISTER
      = .value (.METHOD (some "Ljava/lang/Class;") (some "<init>"))
    ∧ (some "Ljava/lang/Class;" : Option DexType) ≠ some "LBaz;" := by
  exact ⟨by decide, by decide⟩

/-- C8: `AbstractObject` equality is structural over exactly the variant's
listed attributes: it coincides with structural equality of the tagged value,
`Object` values compare by type alone, `String` values by their interned
string alone, `Class` values by type and source, and `Field`/`Method` values
by type and name. -/
theorem c8_abstract_object_equality_structural :
    (∀ x y : AbstractObject, aoEq x y = true ↔ x = y)
    ∧ (∀ t1 t2 : Option DexType,
        aoEq (.OBJECT t1) (.OBJECT t2) = true ↔ t1 = t2)
    ∧ (∀ s1 s2 : Option DexString,
        aoEq (.STRING s1) (.STRING s2) = true ↔ s1 = s2)
    ∧ (∀ (t1 t2 : Option DexType) (c1 c2 : ClassObjectSource),
        aoEq (.CLASS t1 c1) (.CLASS t2 c2) = true ↔ t1 = t2 ∧ c1 = c2)
    ∧ (∀ (t1 t2 : Option DexType) (n1 n2 : Option DexString),
        aoEq (.FIELD t1 n1) (.FIELD t2 n2) = true ↔ t1 = t2 ∧ n1 = n2)
    ∧ (∀ (t1 t2 : Option DexType) (n1 n2 : Option DexString),
        aoEq (.METHOD t1 n1) (.METHOD t2 n2) = true ↔ t1 = t2 ∧ n1 = n2) := by
  refine ⟨aoEq_iff_eq, ?_, ?_, ?_, ?_, ?_⟩ <;>
    intros <;> simp [aoEq_iff_eq]

/-- C8 witness: concrete instances of the equality characterizations. -/
theorem c8_witness :
    aoEq (.CLASS (some "LA;") .REFLECTION) (.CLASS (some "LA;") .NON_REFLECTION)
        = true ↔ (some "LA;" : Option DexType) = some "LA;"
          ∧ ClassObjectSource.REFLECTION = .NON_REFLECTION :=
  c8_abstract_object_equality_structural.2.2.2.1 (some "LA;") (some "LA;")
    .REFLECTION .NON_REFLECTION

/-- C10: `get_abstract_object` returns `none` for any instruction absent from
the replay cache, and a `some` result only ever comes from a cached
environment, equalling that environment's constant for the register; the
facade additionally returns `none` when there is no analyzer. -/
theorem c10_get_abstract_object_cache : ∀ (a : AnalyzerModel) (reg insn : Nat),
    (List.lookup insn a.environments = none →
      a.get_abstract_object reg insn = none)
    ∧ (∀ obj, a.get_abstract_object reg insn = some obj →
        ∃ e, List.lookup insn a.environments = some e
          ∧ (e.get reg).get_constant = some obj)
    ∧ (∀ m, ReflectionAnalysisModel.get_abstract_object ⟨m, none⟩ reg insn
        = none)
    ∧ (∀ m, ReflectionAnalysisModel.get_abstract_object ⟨m, some a⟩ reg insn
        = a.get_abstract_object reg insn) := by
  intro a reg insn
  refine ⟨?_, ?_, fun _ => rfl, fun _ => rfl⟩
  · intro h
    simp [AnalyzerModel.get_abstract_object, h]
  · intro obj h
    unfold AnalyzerModel.get_abstract_object at h
    cases hl : List.lookup insn a.environments with
    | none => rw [hl] at h; exact absurd h (by simp)
    | some e => exact ⟨e, rfl, by rw [hl] at h; exact h⟩

/-- C10 witness: the empty cache yields `none`. -/
theorem c10_witness :
    List.lookup 7 (AnalyzerModel.mk []).environments = none
    ∧ (AnalyzerModel.mk []).get_abstract_object 3 7 = none :=
  ⟨rfl, (c10_get_abstract_object_cache ⟨[]⟩ 3 7).1 rfl⟩

/-- A stand-in for the externally-supplied fixpoint run, used to instantiate
the facade constructor on a method without code (where it is never called). -/
def dummyAnalyzerRun : IRCodeModel → AnalyzerModel := fun _ => ⟨[]⟩

/-- A method without code (e.g. abstract or native). -/
def abstractMethod : DexMethod := ⟨"LFoo;", false, [], none⟩

/-- C2 (code bug): for a method without code the constructor completes with
"no analyzer" and `get_abstract_object` (which checks for the missing
analyzer) returns `none`; but `get_reflection_sites` dereferences the null
`IRCode` pointer for the registers size with no check (modelled `none`),
instead of returning the empty sequence the claim states, and
`has_found_reflection` inherits the failure instead of returning `false`. -/
theorem c2_no_code_reflection_sites_crash :
    (reflectionAnalysisCtor dummyAnalyzerRun abstractMethod).analyzer = none
    ∧ (∀ reg insn,
        (reflectionAnalysisCtor dummyAnalyzerRun
            abstractMethod).get_abstract_object reg insn = none)
    ∧ get_reflection_sites (reflectionAnalysisCtor dummyAnalyzerRun
        abstractMethod) = none
    ∧ has_found_reflection (reflectionAnalysisCtor dummyAnalyzerRun
        abstractMethod) = none :=
  ⟨rfl, fun _ _ => rfl, rfl, rfl⟩

/-- C6: an invoke-static of the interned single-argument `Class.forName`
handle whose first source register holds a constant string binds
`RESULT_REGISTER` to the reflective class of the internal-form name
(`'.'` → `'/'`, wrapped `L…;`); any other invoke-static callee gets the
generic return-object binding. -/
theorem c6_for_name_transfer : ∀ (s0 : Nat) (E : Env) (ext : String),
    ((E.get s0).get_constant = some (.STRING (some ext)) →
      (analyze_instruction (.INVOKE_STATIC m_for_name s0) E).get
          RESULT_REGISTER
        = .value (.CLASS (some (external_to_internal ext)) .REFLECTION))
    ∧ (∀ c, c ≠ m_for_name →
        analyze_instruction (.INVOKE_STATIC c s0) E
          = update_return_object E c) := by
  intro s0 E ext
  constructor
  · intro h
    cases E with
    | bot =>
      simp [AbstractObjectEnvironment.get,
        AbstractObjectDomain.get_constant] at h
    | env m =>
      have hm : m s0 = .vconst (.STRING (some ext)) := by
        cases hms : m s0 <;>
          simp_all [AbstractObjectEnvironment.get, RegValue.toDomain,
            AbstractObjectDomain.get_constant]
      simp [analyze_instruction, AbstractObjectEnvironment.get, hm,
        RegValue.toDomain, AbstractObjectDomain.get_constant,
        AbstractObjectEnvironment.set]
  · intro c hc
    simp [analyze_instruction, hc]

/-- C6 witness: `const-string "com.foo.Bar"` into `Class.forName` yields
`CLASS_REFLECT{Lcom/foo/Bar;}`. -/
theorem c6_witness :
    ((AbstractObjectEnvironment.top.set 0
        (.value (.STRING (some "com.foo.Bar")))).get 0).get_constant
      = some (.STRING (some "com.foo.Bar"))
    ∧ (analyze_instruction (.INVOKE_STATIC m_for_name 0)
        (AbstractObjectEnvironment.top.set 0
          (.value (.STRING (some "com.foo.Bar"))))).get RESULT_REGISTER
      = .value (.CLASS (some "Lcom/foo/Bar;") .REFLECTION) := by
  refine ⟨by decide, ?_⟩
  have h := (c6_for_name_transfer 0
    (AbstractObjectEnvironment.top.set 0
      (.value (.STRING (some "com.foo.Bar")))) "com.foo.Bar").1 (by decide)
  rw [h]
  decide

/-- The value the seeding scan binds for an object parameter of type `t`
(`update_non_string_input` through the load's destination register). -/
def paramBinding (t : DexType) : AbstractObjectDomain :=
  if t = classType then .value (.CLASS none .NON_REFLECTION)
  else .value (.OBJECT (some t))

theorem update_non_string_input_load_param_obj (s : Env) (d : Nat)
    (t : DexType) :
    update_non_string_input s (.LOAD_PARAM_OBJECT d) t
      = s.set d (paramBinding t) := by
  unfold update_non_string_input paramBinding
  split <;> rfl

/-- Whether an instruction is one of the parameter pseudo-instructions. -/
def isParamLoad : IRInstruction → Bool
  | .LOAD_PARAM _ | .LOAD_PARAM_OBJECT _ | .LOAD_PARAM_WIDE _ => true
  | _ => false

/-- C7: the entry-state seeding scans the leading parameter
pseudo-instructions in order and stops at the first other opcode; a
load-parameter-object binds the declaring class for the first parameter of a
non-static method and the next argument type otherwise — the `Class`
metatype becoming `Constant(Class(unknown, NonReflection))` and any other
type `Constant(Object(T))` — while narrow and wide parameter loads get
default semantics (⊤). -/
theorem c7_param_seeding :
    (∀ (m : DexMethod) (sig : List DexType) (s : Env) (d : Nat)
        (rest : List IRInstruction), m.is_static = false →
      seedParams m true sig s (.LOAD_PARAM_OBJECT d :: rest)
        = seedParams m false sig (s.set d (paramBinding m.cls)) rest)
    ∧ (∀ (m : DexMethod) (fp : Bool) (t : DexType) (sig2 : List DexType)
        (s : Env) (d : Nat) (rest : List IRInstruction),
        fp = false ∨ m.is_static = true →
      seedParams m fp (t :: sig2) s (.LOAD_PARAM_OBJECT d :: rest)
        = seedParams m fp sig2 (s.set d (paramBinding t)) rest)
    ∧ (∀ (m : DexMethod) (fp : Bool) (sig : List DexType) (s : Env) (d : Nat)
        (rest : List IRInstruction),
      seedParams m fp sig s (.LOAD_PARAM d :: rest)
        = seedParams m fp sig (s.set d .top) rest)
    ∧ (∀ (m : DexMethod) (fp : Bool) (sig : List DexType) (s : Env) (d : Nat)
        (rest : List IRInstruction),
      seedParams m fp sig s (.LOAD_PARAM_WIDE d :: rest)
        = seedParams m fp sig ((s.set d .top).set (d + 1) .top) rest)
    ∧ (∀ (m : DexMethod) (fp : Bool) (sig : List DexType) (s : Env)
        (i : IRInstruction) (rest : List IRInstruction), isParamLoad i = false →
      seedParams m fp sig s (i :: rest) = some s)
    ∧ paramBinding classType = .value (.CLASS none .NON_REFLECTION)
    ∧ (∀ t, t ≠ classType → paramBinding t = .value (.OBJECT (some t))) := by
  refine ⟨?_, ?_, ?_, ?_, ?_, by simp [paramBinding], ?_⟩
  · intro m sig s d rest h
    simp [seedParams, h, update_non_string_input_load_param_obj]
  · intro m fp t sig2 s d rest h
    rcases h with rfl | hst
    · simp [seedParams, update_non_string_input_load_param_obj]
    · simp [seedParams, hst, update_non_string_input_load_param_obj]
  · intro m fp sig s d rest
    simp [seedParams,
      show default_semantics (.LOAD_PARAM d) s = s.set d .top from rfl]
  · intro m fp sig s d rest
    simp [seedParams,
      show default_semantics (.LOAD_PARAM_WIDE d) s
        = (s.set d .top).set (d + 1) .top from rfl]
  · intro m fp sig s i rest h
    cases i <;> first
      | rfl
      | simp [isParamLoad] at h
  · intro t ht
    simp [paramBinding, ht]

/-- C7 witness: a non-static method binds `this` for the first
load-parameter-object. -/
theorem c7_witness :
    (DexMethod.mk "LFoo;" false ["Ljava/lang/String;"] none).is_static = false
    ∧ seedParams (DexMethod.mk "LFoo;" false ["Ljava/lang/String;"] none)
        true ["Ljava/lang/String;"] AbstractObjectEnvironment.top
        [.LOAD_PARAM_OBJECT 0]
      = seedParams (DexMethod.mk "LFoo;" false ["Ljava/lang/String;"] none)
          false ["Ljava/lang/String;"]
          (AbstractObjectEnvironment.top.set 0 (paramBinding "LFoo;")) [] :=
  ⟨rfl, c7_param_seeding.1 (DexMethod.mk "LFoo;" false ["Ljava/lang/String;"]
    none) ["Ljava/lang/String;"] AbstractObjectEnvironment.top 0 [] rfl⟩

/-- C3 counterexample: the transfer function is not monotone. With
`E = ⊤[0 ↦ Object(LFoo;)] ⊑ E2 = ⊤`, the `Object.getClass()` rule maps `E`
to `RESULT ↦ Class(LFoo;, Reflection)` but `E2` to the incomparable
`RESULT ↦ Class(unknown, NonReflection)` via the generic return binding. -/
theorem c3_counterexample :
    (AbstractObjectEnvironment.top.set 0
        (.value (.OBJECT (some "LFoo;")))).le AbstractObjectEnvironment.top
    ∧ ¬ (analyze_instruction (.INVOKE_VIRTUAL m_get_class 0 1)
          (AbstractObjectEnvironment.top.set 0
            (.value (.OBJECT (some "LFoo;"))))).le
        (analyze_instruction (.INVOKE_VIRTUAL m_get_class 0 1)
          AbstractObjectEnvironment.top) := by
  constructor
  · intro r
    exact regValue_le_top _
  · exact not_le_of_get RESULT_REGISTER (by decide)

/-- C3 (amended): the per-instruction transfer function is monotone for every
instruction other than invoke-virtual and the `Class.forName` invoke-static
(whose reflection rules inspect register constants and can map a refinement
of ⊤ to an incomparable constant). -/
theorem c3_transfer_monotone_except_reflective_invokes :
    ∀ (i : IRInstruction) (E E2 : Env), mono_ok i = true → E.le E2 →
      (analyze_instruction i E).le (analyze_instruction i E2) := by
  intro i E E2 hok h
  cases i with
  | LOAD_PARAM d => exact h
  | LOAD_PARAM_OBJECT d => exact h
  | LOAD_PARAM_WIDE d => exact h
  | MOVE_OBJECT d s => exact set_le h (get_le h s) d
  | MOVE_RESULT_OBJECT d => exact set_le h (get_le h _) d
  | MOVE_RESULT_PSEUDO_OBJECT d => exact set_le h (get_le h _) d
  | CONST_STRING lit => exact set_le h (domain_le_refl _) _
  | CONST_CLASS t => exact set_le h (domain_le_refl _) _
  | CHECK_CAST s t => exact set_le h (get_le h s) _
  | IGET_OBJECT s ft => exact update_non_string_input_le h _ _
  | SGET_OBJECT ft => exact update_non_string_input_le h _ _
  | NEW_INSTANCE t => exact set_le h (domain_le_refl _) _
  | NEW_ARRAY s t => exact set_le h (domain_le_refl _) _
  | FILLED_NEW_ARRAY t => exact set_le h (domain_le_refl _) _
  | INVOKE_INTERFACE c => exact update_return_object_le h c
  | INVOKE_SUPER c => exact update_return_object_le h c
  | INVOKE_DIRECT c => exact update_return_object_le h c
  | OTHER d w b => exact default_semantics_le h _
  | INVOKE_VIRTUAL c s0 s1 => exact absurd hok (by simp [mono_ok])
  | INVOKE_STATIC c s0 =>
    have hc : c ≠ m_for_name := by simpa [mono_ok] using hok
    simp only [analyze_instruction, hc, if_false, ite_false]
    exact update_return_object_le h c
  | AGET_OBJECT s0 s1 =>
    cases E with
    | bot => rw [analyze_instruction_bot]; trivial
    | env m =>
      cases E2 with
      | bot => exact absurd h env_not_le_bot
      | env m2 =>
        have hr := h s0
        cases hm : m s0 with
        | vtop =>
          have hm2 : m2 s0 = .vtop := by
            cases hm2 : m2 s0
            · rfl
            · rw [hm, hm2] at hr; simp [RegValue.le] at hr
          simp only [analyze_instruction, AbstractObjectEnvironment.get, hm,
            hm2, RegValue.toDomain, AbstractObjectDomain.get_constant]
          exact default_semantics_le h _
        | vconst a =>
          cases hm2 : m2 s0 with
          | vtop =>
            simp only [analyze_instruction, AbstractObjectEnvironment.get, hm,
              hm2, RegValue.toDomain, AbstractObjectDomain.get_constant]
            cases ht : a.dex_type with
            | none => exact default_semantics_le h _
            | some t =>
              cases hb : isArray t with
              | true =>
                simp only [if_pos hb]
                unfold update_non_string_input default_semantics
                split <;>
                  exact set_le h (domain_le_top _) _
              | false =>
                simp only [if_neg (by simp [hb] : ¬ isArray t = true)]
                exact default_semantics_le h _
          | vconst b =>
            have hab : a = b := by
              rw [hm, hm2] at hr
              exact (aoEq_iff_eq a b).1 hr
            subst hab
            simp only [analyze_instruction, AbstractObjectEnvironment.get, hm,
              hm2, RegValue.toDomain, AbstractObjectDomain.get_constant]
            cases ht : a.dex_type with
            | none => exact default_semantics_le h _
            | some t =>
              cases hb : isArray t with
              | true =>
                simp only [if_pos hb]
                exact update_non_string_input_le h _ _
              | false =>
                simp only [if_neg (by simp [hb] : ¬ isArray t = true)]
                exact default_semantics_le h _

theorem aget_default_result (s0 s1 : Nat) {X1 X2 : Env} (h1 : X1 ≠ .bot)
    (h2 : X2 ≠ .bot) :
    (default_semantics (.AGET_OBJECT s0 s1) X1).get RESULT_REGISTER
      = (default_semantics (.AGET_OBJECT s0 s1) X2).get RESULT_REGISTER := by
  show (X1.set RESULT_REGISTER .top).get RESULT_REGISTER
    = (X2.set RESULT_REGISTER .top).get RESULT_REGISTER
  rw [get_after_set_self h1 top_ne_bot, get_after_set_self h2 top_ne_bot]

theorem aget_tail_result (s0 s1 : Nat) {X1 X2 : Env} (h1 : X1 ≠ .bot)
    (h2 : X2 ≠ .bot) (ot : Option DexType) :
    (AbstractObjectEnvironment.get
        (match ot with
         | some t =>
             if isArray t = true then
               update_non_string_input X1 (.AGET_OBJECT s0 s1)
                 (get_array_component_type t)
             else default_semantics (.AGET_OBJECT s0 s1) X1
         | none => default_semantics (.AGET_OBJECT s0 s1) X1)
        RESULT_REGISTER)
      = (AbstractObjectEnvironment.get
          (match ot with
           | some t =>
               if isArray t = true then
                 update_non_string_input X2 (.AGET_OBJECT s0 s1)
                   (get_array_component_type t)
               else default_semantics (.AGET_OBJECT s0 s1) X2
           | none => default_semantics (.AGET_OBJECT s0 s1) X2)
          RESULT_REGISTER) := by
  cases ot with
  | none => exact aget_default_result s0 s1 h1 h2
  | some t =>
    cases hb : isArray t with
    | false =>
      simp only [hb, Bool.false_eq_true, if_false]
      exact aget_default_result s0 s1 h1 h2
    | true =>
      simp only [if_pos hb]
      unfold update_non_string_input
      rw [show destRegOf (.AGET_OBJECT s0 s1) = RESULT_REGISTER from rfl]
      split <;>
        rw [get_after_set_self h1 (value_ne_bot _),
          get_after_set_self h2 (value_ne_bot _)]

/-- C5 counterexample: an invoke-direct of a callee returning the primitive
`int` writes a conventional result, yet after its transfer `RESULT_REGISTER`
still holds the `Constant(String "a")` left there by an earlier instruction
— the stale value, not ⊤ nor a constant derived by the invoke's rule — and
the outcome depends on the incoming `RESULT_REGISTER` value. -/
theorem c5_counterexample :
    IRInstruction.hasMoveResult (.INVOKE_DIRECT ⟨"LFoo;", "bar", [], "I"⟩)
        = true
    ∧ (analyze_instruction (.INVOKE_DIRECT ⟨"LFoo;", "bar", [], "I"⟩)
        (AbstractObjectEnvironment.top.set RESULT_REGISTER
          (.value (.STRING (some "a"))))).get RESULT_REGISTER
      = .value (.STRING (some "a"))
    ∧ (analyze_instruction (.INVOKE_DIRECT ⟨"LFoo;", "bar", [], "I"⟩)
        (AbstractObjectEnvironment.top.set RESULT_REGISTER
          AbstractObjectDomain.top)).get RESULT_REGISTER
      = AbstractObjectDomain.top
    ∧ (AbstractObjectDomain.value (.STRING (some "a")))
        ≠ AbstractObjectDomain.top := by
  exact ⟨by decide, by decide, by decide, by decide⟩

/-- C5 (amended): every instruction that writes a conventional result either
computes `RESULT_REGISTER` independently of its incoming value (⊤ or a
rule-derived constant), or is an invoke whose declared return type is void or
a primitive, in which case the transfer leaves the whole environment — the
stale `RESULT_REGISTER` included — unchanged. -/
theorem c5_result_register_not_stale_except_nonobject_invokes :
    ∀ (i : IRInstruction) (E : Env) (v w : AbstractObjectDomain),
      i.hasMoveResult = true → RESULT_REGISTER ∉ i.srcRegsOf →
      v ≠ .bot → w ≠ .bot →
      ((analyze_instruction i (E.set RESULT_REGISTER v)).get RESULT_REGISTER
        = (analyze_instruction i (E.set RESULT_REGISTER w)).get
            RESULT_REGISTER)
      ∨ (∃ c, i.calleeOf = some c
          ∧ (isVoid c.rtype || !isObjectType c.rtype) = true
          ∧ analyze_instruction i (E.set RESULT_REGISTER v)
              = E.set RESULT_REGISTER v
          ∧ analyze_instruction i (E.set RESULT_REGISTER w)
              = E.set RESULT_REGISTER w) := by
  intro i E v w hmr hsrc hv hw
  by_cases hE : E = .bot
  · subst hE
    left
    rw [set_bot, set_bot, analyze_instruction_bot]
  · have hX1 : E.set RESULT_REGISTER v ≠ .bot := set_ne_bot hE hv _
    have hX2 : E.set RESULT_REGISTER w ≠ .bot := set_ne_bot hE hw _
    have hagree : ∀ r, r ≠ RESULT_REGISTER →
        (E.set RESULT_REGISTER v).get r = (E.set RESULT_REGISTER w).get r :=
      fun r hr => by
        rw [get_after_set_other hv hr, get_after_set_other hw hr]
    cases i with
    | LOAD_PARAM d => simp [IRInstruction.hasMoveResult] at hmr
    | LOAD_PARAM_OBJECT d => simp [IRInstruction.hasMoveResult] at hmr
    | LOAD_PARAM_WIDE d => simp [IRInstruction.hasMoveResult] at hmr
    | MOVE_OBJECT d s => simp [IRInstruction.hasMoveResult] at hmr
    | MOVE_RESULT_OBJECT d => simp [IRInstruction.hasMoveResult] at hmr
    | MOVE_RESULT_PSEUDO_OBJECT d => simp [IRInstruction.hasMoveResult] at hmr
    | CONST_STRING lit =>
      left
      simp only [analyze_instruction]
      rw [get_after_set_self hX1 (value_ne_bot _),
        get_after_set_self hX2 (value_ne_bot _)]
    | CONST_CLASS t =>
      left
      simp only [analyze_instruction]
      rw [get_after_set_self hX1 (value_ne_bot _),
        get_after_set_self hX2 (value_ne_bot _)]
    | NEW_INSTANCE t =>
      left
      simp only [analyze_instruction]
      rw [get_after_set_self hX1 (value_ne_bot _),
        get_after_set_self hX2 (value_ne_bot _)]
    | NEW_ARRAY s t =>
      left
      simp only [analyze_instruction]
      rw [get_after_set_self hX1 (value_ne_bot _),
        get_after_set_self hX2 (value_ne_bot _)]
    | FILLED_NEW_ARRAY t =>
      left
      simp only [analyze_instruction]
      rw [get_after_set_self hX1 (value_ne_bot _),
        get_after_set_self hX2 (value_ne_bot _)]
    | CHECK_CAST s t =>
      left
      have hs : s ≠ RESULT_REGISTER := by
        simp [IRInstruction.srcRegsOf] at hsrc
        exact fun h => hsrc h.symm
      simp only [analyze_instruction]
      rw [get_after_set_self hX1 (get_ne_bot hX1 s),
        get_after_set_self hX2 (get_ne_bot hX2 s), hagree s hs]
    | IGET_OBJECT s ft =>
      left
      simp only [analyze_instruction]
      unfold update_non_string_input
      rw [show destRegOf (.IGET_OBJECT s ft) = RESULT_REGISTER from rfl]
      split <;>
        rw [get_after_set_self hX1 (value_ne_bot _),
          get_after_set_self hX2 (value_ne_bot _)]
    | SGET_OBJECT ft =>
      left
      simp only [analyze_instruction]
      unfold update_non_string_input
      rw [show destRegOf (.SGET_OBJECT ft) = RESULT_REGISTER from rfl]
      split <;>
        rw [get_after_set_self hX1 (value_ne_bot _),
          get_after_set_self hX2 (value_ne_bot _)]
    | OTHER d wde b =>
      left
      have hb : b = true := hmr
      subst hb
      unfold analyze_instruction default_semantics
      cases d with
      | none =>
        simp only [IRInstruction.destOf, IRInstruction.hasMoveResult,
          if_true, ite_true]
        rw [get_after_set_self hX1 top_ne_bot,
          get_after_set_self hX2 top_ne_bot]
      | some dd =>
        simp only [IRInstruction.destOf, IRInstruction.hasMoveResult,
          IRInstruction.destIsWide, if_true, ite_true]
        cases wde with
        | false =>
          simp only [Bool.false_eq_true, if_false, ite_false]
          rw [get_after_set_self (set_ne_bot hX1 top_ne_bot _) top_ne_bot,
            get_after_set_self (set_ne_bot hX2 top_ne_bot _) top_ne_bot]
        | true =>
          simp only [if_true, ite_true]
          rw [get_after_set_self
              (set_ne_bot (set_ne_bot hX1 top_ne_bot _) top_ne_bot _)
              top_ne_bot,
            get_after_set_self
              (set_ne_bot (set_ne_bot hX2 top_ne_bot _) top_ne_bot _)
              top_ne_bot]
    | AGET_OBJECT s0 s1 =>
      left
      have hs0 : s0 ≠ RESULT_REGISTER := by
        simp [IRInstruction.srcRegsOf] at hsrc
        exact fun h => hsrc.1 h.symm
      have hrec := hagree s0 hs0
      simp only [analyze_instruction, hrec]
      cases ((E.set RESULT_REGISTER w).get s0).get_constant with
      | none => exact aget_default_result s0 s1 hX1 hX2
      | some recv => exact aget_tail_result s0 s1 hX1 hX2 recv.dex_type
    | INVOKE_DIRECT c =>
      cases hrt : (isVoid c.rtype || !isObjectType c.rtype) with
      | true =>
        right
        exact ⟨c, rfl, hrt,
          (nonobject_invoke_transfer_id c hrt).2.1 _,
          (nonobject_invoke_transfer_id c hrt).2.1 _⟩
      | false =>
        left
        show (update_return_object (E.set RESULT_REGISTER v) c).get
            RESULT_REGISTER
          = (update_return_object (E.set RESULT_REGISTER w) c).get
            RESULT_REGISTER
        rw [update_return_object_result_const hrt hX1,
          update_return_object_result_const hrt hX2]
    | INVOKE_SUPER c =>
      cases hrt : (isVoid c.rtype || !isObjectType c.rtype) with
      | true =>
        right
        exact ⟨c, rfl, hrt,
          (nonobject_invoke_transfer_id c hrt).2.2.1 _,
          (nonobject_invoke_transfer_id c hrt).2.2.1 _⟩
      | false =>
        left
        show (update_return_object (E.set RESULT_REGISTER v) c).get
            RESULT_REGISTER
          = (update_return_object (E.set RESULT_REGISTER w) c).get
            RESULT_REGISTER
        rw [update_return_object_result_const hrt hX1,
          update_return_object_result_const hrt hX2]
    | INVOKE_INTERFACE c =>
      cases hrt : (isVoid c.rtype || !isObjectType c.rtype) with
      | true =>
        right
        exact ⟨c, rfl, hrt,
          (nonobject_invoke_transfer_id c hrt).2.2.2.1 _,
          (nonobject_invoke_transfer_id c hrt).2.2.2.1 _⟩
      | false =>
        left
        show (update_return_object (E.set RESULT_REGISTER v) c).get
            RESULT_REGISTER
          = (update_return_object (E.set RESULT_REGISTER w) c).get
            RESULT_REGISTER
        rw [update_return_object_result_const hrt hX1,
          update_return_object_result_const hrt hX2]
    | INVOKE_STATIC c s0 =>
      cases hrt : (isVoid c.rtype || !isObjectType c.rtype) with
      | true =>
        right
        exact ⟨c, rfl, hrt,
          (nonobject_invoke_transfer_id c hrt).2.2.2.2.1 _ _,
          (nonobject_invoke_transfer_id c hrt).2.2.2.2.1 _ _⟩
      | false =>
        left
        have hs0 : s0 ≠ RESULT_REGISTER := by
          simp [IRInstruction.srcRegsOf] at hsrc
          exact fun h => hsrc h.symm
        have hrec := hagree s0 hs0
        by_cases hcf : c = m_for_name
        · subst hcf
          rw [analyze_invoke_static_for_name, analyze_invoke_static_for_name,
            hrec]
          cases hc : ((E.set RESULT_REGISTER w).get s0).get_constant with
          | none =>
            rw [update_return_object_result_const hrt hX1,
              update_return_object_result_const hrt hX2]
          | some className =>
            cases className with
            | STRING so =>
              cases so with
              | none =>
                rw [update_return_object_result_const hrt hX1,
                  update_return_object_result_const hrt hX2]
              | some str =>
                rw [get_after_set_self hX1 (value_ne_bot _),
                  get_after_set_self hX2 (value_ne_bot _)]
            | OBJECT t =>
              rw [update_return_object_result_const hrt hX1,
                update_return_object_result_const hrt hX2]
            | CLASS t src =>
              rw [update_return_object_result_const hrt hX1,
                update_return_object_result_const hrt hX2]
            | FIELD t n =>
              rw [update_return_object_result_const hrt hX1,
                update_return_object_result_const hrt hX2]
            | METHOD t n =>
              rw [update_return_object_result_const hrt hX1,
                update_return_object_result_const hrt hX2]
        · simp only [analyze_instruction, if_neg hcf]
          rw [update_return_object_result_const hrt hX1,
            update_return_object_result_const hrt hX2]
    | INVOKE_VIRTUAL c s0 s1 =>
      cases hrt : (isVoid c.rtype || !isObjectType c.rtype) with
      | true =>
        right
        exact ⟨c, rfl, hrt,
          (nonobject_invoke_transfer_id c hrt).2.2.2.2.2 _ _ _,
          (nonobject_invoke_transfer_id c hrt).2.2.2.2.2 _ _ _⟩
      | false =>
        left
        have hs0 : s0 ≠ RESULT_REGISTER := by
          simp [IRInstruction.srcRegsOf] at hsrc
          exact fun h => hsrc.1 h.symm
        have hs1 : s1 ≠ RESULT_REGISTER := by
          simp [IRInstruction.srcRegsOf] at hsrc
          exact fun h => hsrc.2 h.symm
        have hrec := hagree s0 hs0
        have hstr := get_dex_string_congr (hagree s1 hs1)
        simp only [analyze_instruction, hrec]
        cases hc : ((E.set RESULT_REGISTER w).get s0).get_constant with
        | none =>
          rw [update_return_object_result_const hrt hX1,
            update_return_object_result_const hrt hX2]
        | some recv =>
          cases recv with
          | OBJECT t =>
            by_cases hgc : c = m_get_class
            · simp only [process_virtual_call, if_pos hgc]
              rw [get_after_set_self hX1 (value_ne_bot _),
                get_after_set_self hX2 (value_ne_bot _)]
            · simp only [process_virtual_call, if_neg hgc]
              rw [update_return_object_result_const hrt hX1,
                update_return_object_result_const hrt hX2]
          | STRING so =>
            by_cases hgc : c = m_get_class
            · simp only [process_virtual_call, if_pos hgc]
              rw [get_after_set_self hX1 (value_ne_bot _),
                get_after_set_self hX2 (value_ne_bot _)]
            · simp only [process_virtual_call, if_neg hgc]
              rw [update_return_object_result_const hrt hX1,
                update_return_object_result_const hrt hX2]
          | FIELD t n =>
            by_cases hgn : c = m_get_field_name
            · simp only [process_virtual_call, if_pos hgn]
              rw [get_after_set_self hX1 (value_ne_bot _),
                get_after_set_self hX2 (value_ne_bot _)]
            · simp only [process_virtual_call, if_neg hgn]
              rw [update_return_object_result_const hrt hX1,
                update_return_object_result_const hrt hX2]
          | METHOD t n =>
            by_cases hgn : c = m_get_method_name
            · simp only [process_virtual_call, if_pos hgn]
              rw [get_after_set_self hX1 (value_ne_bot _),
                get_after_set_self hX2 (value_ne_bot _)]
            · simp only [process_virtual_call, if_neg hgn]
              rw [update_return_object_result_const hrt hX1,
                update_return_object_result_const hrt hX2]
          | CLASS t src =>
            simp only [process_virtual_call, hstr]
            by_cases hme : c = m_get_method ∨ c = m_get_declared_method
            · simp only [if_pos hme]
              cases get_dex_string_from_insn (E.set RESULT_REGISTER w) s1 with
              | none =>
                rw [update_return_object_result_const hrt hX1,
                  update_return_object_result_const hrt hX2]
              | some nm =>
                rw [get_after_set_self hX1 (value_ne_bot _),
                  get_after_set_self hX2 (value_ne_bot _)]
            · simp only [if_neg hme]
              by_cases hct : c ∈ m_ctor_lookup_vmethods
              · simp only [if_pos hct]
                rw [get_after_set_self hX1 (value_ne_bot _),
                  get_after_set_self hX2 (value_ne_bot _)]
              · simp only [if_neg hct]
                by_cases hfe : c = m_get_field ∨ c = m_get_declared_field
                · simp only [if_pos hfe]
                  cases get_dex_string_from_insn (E.set RESULT_REGISTER w) s1
                    with
                  | none =>
                    rw [update_return_object_result_const hrt hX1,
                      update_return_object_result_const hrt hX2]
                  | some nm =>
                    rw [get_after_set_self hX1 (value_ne_bot _),
                      get_after_set_self hX2 (value_ne_bot _)]
                · simp only [if_neg hfe]
                  rw [update_return_object_result_const hrt hX1,
                    update_return_object_result_const hrt hX2]

/-- C5 witness: a concrete object-returning invoke computes the same
`RESULT_REGISTER` value from two different incoming ones. -/
theorem c5_witness :
    IRInstruction.hasMoveResult
        (.CONST_STRING "x") = true
    ∧ RESULT_REGISTER ∉ IRInstruction.srcRegsOf (.CONST_STRING "x")
    ∧ (AbstractObjectDomain.value (.STRING (some "a")) ≠ .bot)
    ∧ (AbstractObjectDomain.top ≠ .bot)
    ∧ (((analyze_instruction (.CONST_STRING "x")
          (AbstractObjectEnvironment.top.set RESULT_REGISTER
            (.value (.STRING (some "a"))))).get RESULT_REGISTER
        = (analyze_instruction (.CONST_STRING "x")
            (AbstractObjectEnvironment.top.set RESULT_REGISTER
              AbstractObjectDomain.top)).get RESULT_REGISTER)
      ∨ (∃ c, (IRInstruction.CONST_STRING "x").calleeOf = some c
          ∧ (isVoid c.rtype || !isObjectType c.rtype) = true
          ∧ analyze_instruction (.CONST_STRING "x")
              (AbstractObjectEnvironment.top.set RESULT_REGISTER
                (.value (.STRING (some "a"))))
            = AbstractObjectEnvironment.top.set RESULT_REGISTER
                (.value (.STRING (some "a")))
          ∧ analyze_instruction (.CONST_STRING "x")
              (AbstractObjectEnvironment.top.set RESULT_REGISTER
                AbstractObjectDomain.top)
            = AbstractObjectEnvironment.top.set RESULT_REGISTER
                AbstractObjectDomain.top)) :=
  ⟨rfl, by decide, by decide, by decide,
    c5_result_register_not_stale_except_nonobject_invokes
      (.CONST_STRING "x") AbstractObjectEnvironment.top
      (.value (.STRING (some "a"))) .top rfl (by decide)
      (by decide) (by decide)⟩

/-- C3 witness: a concrete monotone instance of the amended statement. -/
theorem c3_witness :
    mono_ok (.MOVE_OBJECT 1 0) = true
    ∧ (analyze_instruction (.MOVE_OBJECT 1 0)
        (AbstractObjectEnvironment.top.set 0
          (.value (.STRING (some "a"))))).le
      (analyze_instruction (.MOVE_OBJECT 1 0)
        AbstractObjectEnvironment.top) :=
  ⟨rfl, c3_transfer_monotone_except_reflective_invokes _ _ _ rfl
    (fun _ => regValue_le_top _)⟩

end Redex
